import Mathlib

/-!
Shallow embedding of the background job-processing subsystem of goscratch:
the Job envelope (internal/worker/job.go), the Worker's per-message
dispatch and retry logic (internal/worker/worker.go), and the Publisher
(internal/worker/publisher.go).

Modelling conventions:
* JSON byte strings are modelled at the JSON-value level by the inductive
  type `Json`; Go's `json.Marshal` of the envelope produces a compact
  object, so a `Json` value represents its canonical byte form.
* Go `int` fields are modelled as `Int`; every value the subsystem
  manipulates stays far below machine-word bounds (attempts grows by one
  per delivery, capped by `maxRetry`).
* `uuid.New().String()` and `time.Now()` in `NewJob` are nondeterministic
  inputs and become explicit parameters.  `time.Time` values are modelled
  as integer timestamps whose JSON form is a JSON number; the RFC3339
  format/parse pair used by Go (lossless for clock-produced values) is
  modelled by integer identity.
* Effects of the worker callback (logging, the scheduled delayed publish,
  the value returned to the transport) are collected into an explicit
  `HandleResult` record rather than performed.
-/

/-- Model of a JSON document, the wire format of the job envelope.  Numbers are
modelled as integers: the envelope's numeric fields (`attempts`, `max_retry`)
are Go `int`s. -/
inductive Json where
  | null : Json
  | bool (b : Bool) : Json
  | num (n : Int) : Json
  | str (s : String) : Json
  | arr (elems : List Json) : Json
  | obj (fields : List (String × Json)) : Json

/-- Job represents a background job to be processed (struct `Job` in
internal/worker/job.go).  Field `Type` of the Go struct is rendered `Type'`
because `Type` is reserved in Lean.  `Payload` is Go's `json.RawMessage`
(raw JSON bytes), modelled as a `Json` value; the zero `RawMessage` (nil)
marshals as JSON null, so the zero payload is `Json.null`.  `CreatedAt` is
the `time.Time` field, modelled as an integer timestamp. -/
structure Job where
  ID : String
  Type' : String
  Payload : Json
  Attempts : Int
  MaxRetry : Int
  CreatedAt : Int

/-- NewJob creates a new job with the given type and payload.  The fresh
`uuid.New().String()` and `time.Now()` are passed in as `id` and
`createdAt`; `json.Marshal(payload)` is modelled by the payload argument
already being a JSON value (the error branch of `NewJob` corresponds to a
payload with no JSON form, which has no representative here). -/
def NewJob (id : String) (createdAt : Int) (jobType : String) (payload : Json) : Job :=
  { ID := id
    Type' := jobType
    Payload := payload
    Attempts := 0
    MaxRetry := 3
    CreatedAt := createdAt }

/-- NewJobWithRetry creates a new job with custom retry count: it builds the
job via `NewJob` and then overwrites `MaxRetry` with the caller's value,
without any validation. -/
def NewJobWithRetry (id : String) (createdAt : Int) (jobType : String) (payload : Json)
    (maxRetry : Int) : Job :=
  { NewJob id createdAt jobType payload with MaxRetry := maxRetry }

/-- Encode serializes the job to JSON (`json.Marshal(j)`): an object carrying
the six tagged fields in struct order.  Marshal can only fail when the raw
`Payload` bytes are not valid JSON, a state the `Json`-valued payload cannot
represent, so `Encode` is total here. -/
def Job.Encode (j : Job) : Json :=
  Json.obj
    [("id", Json.str j.ID),
     ("type", Json.str j.Type'),
     ("payload", j.Payload),
     ("attempts", Json.num j.Attempts),
     ("max_retry", Json.num j.MaxRetry),
     ("created_at", Json.num j.CreatedAt)]

/-- Job.zero is the zero value of the Go `Job` struct, the starting point of
`json.Unmarshal` into a freshly declared `var job Job`. -/
def Job.zero : Job :=
  { ID := "", Type' := "", Payload := Json.null, Attempts := 0, MaxRetry := 0, CreatedAt := 0 }

/-- asciiLowerChar maps an ASCII upper-case letter to its lower-case form and
leaves every other character unchanged. -/
def asciiLowerChar (c : Char) : Char :=
  if 65 ≤ c.toNat ∧ c.toNat ≤ 90 then Char.ofNat (c.toNat + 32) else c

/-- asciiLower lower-cases the ASCII letters of a string, the case folding
`encoding/json` applies when matching object keys to struct field tags. -/
def asciiLower (s : String) : String :=
  String.mk (s.data.map asciiLowerChar)

/-- decodeJobField is one step of `json.Unmarshal` into the `Job` struct: a
single key/value pair of the input object applied to the partially filled
struct.  Keys match field tags case-insensitively, unknown keys are ignored,
a JSON null leaves a field unchanged (except for the `json.RawMessage`
payload, whose `UnmarshalJSON` stores the raw `null`), and a value of the
wrong JSON type for a field is an `UnmarshalTypeError`.  Two narrow checks
of Go's decoder are outside this model's value range and therefore not
represented: `Json.num` carries a mathematical integer, so the rejection of
number literals that are not exact `int64` values (fractions, exponents,
out-of-range magnitudes) has no counterpart here, and the key fold is
modelled as ASCII folding where Go uses Unicode simple folding; no theorem
below quantifies over inputs where these differences are observable. -/
def decodeJobField (j : Job) (kv : String × Json) : Except String Job :=
  let k := asciiLower kv.1
  if k = "id" then
    match kv.2 with
    | Json.str s => Except.ok { j with ID := s }
    | Json.null => Except.ok j
    | _ => Except.error "json: cannot unmarshal value into field id of type string"
  else if k = "type" then
    match kv.2 with
    | Json.str s => Except.ok { j with Type' := s }
    | Json.null => Except.ok j
    | _ => Except.error "json: cannot unmarshal value into field type of type string"
  else if k = "payload" then
    Except.ok { j with Payload := kv.2 }
  else if k = "attempts" then
    match kv.2 with
    | Json.num n => Except.ok { j with Attempts := n }
    | Json.null => Except.ok j
    | _ => Except.error "json: cannot unmarshal value into field attempts of type int"
  else if k = "max_retry" then
    match kv.2 with
    | Json.num n => Except.ok { j with MaxRetry := n }
    | Json.null => Except.ok j
    | _ => Except.error "json: cannot unmarshal value into field max_retry of type int"
  else if k = "created_at" then
    match kv.2 with
    | Json.num n => Except.ok { j with CreatedAt := n }
    | Json.null => Except.ok j
    | _ => Except.error "json: cannot unmarshal value into field created_at of type time.Time"
  else
    Except.ok j

/-- DecodeJob deserializes a job from JSON (`json.Unmarshal(data, &job)` on a
zero-valued `job`): a JSON null is a no-op yielding the zero struct, a JSON
object is folded field by field over the zero struct, and any other JSON
value cannot unmarshal into a struct.  `DecodeJob` in the source discards the
partially filled struct whenever `json.Unmarshal` reports an error, which the
short-circuiting fold reproduces at the success/failure level. -/
def DecodeJob (data : Json) : Except String Job :=
  match data with
  | Json.null => Except.ok Job.zero
  | Json.obj fields => fields.foldlM decodeJobField Job.zero
  | _ => Except.error "json: cannot unmarshal value into Go value of type worker.Job"

/-- CanRetry returns true if the job can be retried: `j.Attempts < j.MaxRetry`. -/
def Job.CanRetry (j : Job) : Bool :=
  decide (j.Attempts < j.MaxRetry)

/-- IncrementAttempts increments the attempt counter (`j.Attempts++`),
modelled functionally. -/
def Job.IncrementAttempts (j : Job) : Job :=
  { j with Attempts := j.Attempts + 1 }

/-- JobHandler is the handler interface: a job type tag (`Type()`) and a
`Handle(ctx, job)` call modelled by its observable outcome, `none` for
success and `some e` for the error `e` it returns.  The 5-minute context
deadline is part of the ambient execution environment and does not change
the dispatch logic modelled here (a deadline hit surfaces as a handler
error). -/
structure JobHandler where
  type : String
  handle : Job → Option String

/-- Config holds worker configuration (struct `Config` in worker.go). -/
structure Config where
  QueueName : String
  Exchange : String
  Concurrency : Int

/-- Worker state relevant to per-message dispatch: the queue name and
exchange it was constructed with, the concurrency level, and the handler
registry (`map[string]JobHandler`), modelled as a lookup function. -/
structure Worker where
  queueName : String
  exchange : String
  concurrency : Int
  handlers : String → Option JobHandler

/-- New creates a new Worker instance, applying the construction defaults:
concurrency 1 when the configured value is not positive, queue name "jobs"
when empty, exchange passed through (the source's empty-exchange branch
assigns the empty string to itself). -/
def Worker.New (cfg : Config) : Worker :=
  { queueName := if cfg.QueueName = "" then "jobs" else cfg.QueueName
    exchange := cfg.Exchange
    concurrency := if cfg.Concurrency ≤ 0 then 1 else cfg.Concurrency
    handlers := fun _ => none }

/-- RegisterHandler registers a job handler for a specific job type:
`w.handlers[handler.Type()] = handler`, a map write that silently replaces
any earlier registration for the same type. -/
def Worker.RegisterHandler (w : Worker) (h : JobHandler) : Worker :=
  { w with handlers := fun t => if t = h.type then some h else w.handlers t }

/-- PublishCall records one call to the transport's
`Publish(ctx, exchange, routingKey, body)`. -/
structure PublishCall where
  exchange : String
  routingKey : String
  body : Json

/-- RetryAction is the observable effect of `Worker.retryJob`: the backoff
delay it computes (`time.Duration(job.Attempts*job.Attempts) * time.Second`,
in nanoseconds) and the publish call its detached goroutine performs after
that delay. -/
structure RetryAction where
  delayNanos : Int
  publish : PublishCall

/-- second is Go's `time.Second` in nanoseconds, the unit of `time.Duration`. -/
def second : Int := 1000000000

/-- retryJob re-queues a failed job for retry: it computes the quadratic
backoff delay and, after that delay, re-encodes the (already incremented)
envelope and publishes it to the worker's own exchange and queue name.  The
encode-error early return of the source cannot fire here because `Encode` is
total on the `Json`-valued payload. -/
def Worker.retryJob (w : Worker) (job : Job) : RetryAction :=
  { delayNanos := job.Attempts * job.Attempts * second
    publish := { exchange := w.exchange, routingKey := w.queueName, body := job.Encode } }

/-- HandleResult collects the observable outcome of one `handleMessage`
call: the error value returned to the transport callback (`nil` is `none`),
the decoded-and-incremented job when decoding succeeded, whether a handler
was invoked, the retry action scheduled (if any), and the
"Job exhausted retries" terminal log's (job id, job type, attempts) fields
when that log was emitted. -/
structure HandleResult where
  transportErr : Option String
  job : Option Job
  handlerInvoked : Bool
  retry : Option RetryAction
  terminalLog : Option (String × String × Int)

/-- handleMessage processes a single message (worker.go): decode, increment
attempts, look up the handler, run it, and on failure either schedule a
retry via `retryJob` (when `CanRetry`) or log the terminal failure.  Every
branch returns `nil` to the transport, i.e. acknowledges the delivery. -/
def Worker.handleMessage (w : Worker) (msg : Json) : HandleResult :=
  match DecodeJob msg with
  | Except.error _ =>
      { transportErr := none, job := none, handlerInvoked := false,
        retry := none, terminalLog := none }
  | Except.ok job0 =>
      let job := job0.IncrementAttempts
      match w.handlers job.Type' with
      | none =>
          { transportErr := none, job := some job, handlerInvoked := false,
            retry := none, terminalLog := none }
      | some handler =>
          match handler.handle job with
          | some _ =>
              if job.CanRetry then
                { transportErr := none, job := some job, handlerInvoked := true,
                  retry := some (w.retryJob job), terminalLog := none }
              else
                { transportErr := none, job := some job, handlerInvoked := true,
                  retry := none, terminalLog := some (job.ID, job.Type', job.Attempts) }
          | none =>
              { transportErr := none, job := some job, handlerInvoked := true,
                retry := none, terminalLog := none }

/-- run models the delivery loop for one logical job when the worker is the
queue's only consumer: each message is handled, and whenever a retry publish
is scheduled the re-published body is eventually delivered back to the same
worker.  The fuel bounds the number of deliveries observed; the trace of
per-delivery results is returned. -/
def Worker.run (w : Worker) : Nat → Json → List HandleResult
  | 0, _ => []
  | Nat.succ fuel, msg =>
      let r := w.handleMessage msg
      match r.retry with
      | none => [r]
      | some act => r :: w.run fuel act.publish.body

/-- Publisher provides a convenient way to publish jobs to the queue
(publisher.go): it holds the queue name and exchange it was constructed
with. -/
structure Publisher where
  queueName : String
  exchange : String

/-- NewPublisher creates a new job publisher, defaulting the queue name to
"jobs" when empty. -/
def NewPublisher (queueName exchange : String) : Publisher :=
  { queueName := if queueName = "" then "jobs" else queueName
    exchange := exchange }

/-- PublishRaw publishes a pre-created job to the queue: it encodes the job
unchanged and publishes to the publisher's exchange and queue name.  The
call to the transport is the observable outcome. -/
def Publisher.PublishRaw (p : Publisher) (job : Job) : PublishCall :=
  { exchange := p.exchange, routingKey := p.queueName, body := job.Encode }

/-- alwaysFailJobHandler is a handler for type `t` whose `Handle` returns an
error on every invocation. -/
def alwaysFailJobHandler (t : String) : JobHandler :=
  { type := t, handle := fun _ => some "handler failed" }

/-- failWorker is a worker constructed with the default configuration and a
single registered handler, for type `t`, that fails on every invocation. -/
def failWorker (t : String) : Worker :=
  (Worker.New { QueueName := "jobs", Exchange := "", Concurrency := 1 }).RegisterHandler
    (alwaysFailJobHandler t)

/-- emailPayload is the payload of the spec's concrete scenario A:
`{to: "a@b.com", subject: "hi", body: "x"}`. -/
def emailPayload : Json :=
  Json.obj [("to", Json.str "a@b.com"), ("subject", Json.str "hi"), ("body", Json.str "x")]

/-- Encoding then decoding any envelope restores it field for field. -/
theorem decode_encode (j : Job) : DecodeJob j.Encode = Except.ok j := by
  cases j
  rfl

/-- Incrementing the attempt counter leaves the job's type unchanged. -/
theorem incrementAttempts_type (j : Job) : (j.IncrementAttempts).Type' = j.Type' :=
  rfl

/-- C3: for every job value, `CanRetry` returns true iff
`Attempts < MaxRetry`; in particular it is false at `Attempts = MaxRetry`
and true at `Attempts = MaxRetry - 1`, for all integer combinations. -/
theorem canRetry_iff_attempts_lt_maxRetry (j : Job) :
    (j.CanRetry = true ↔ j.Attempts < j.MaxRetry) ∧
    (j.Attempts = j.MaxRetry → j.CanRetry = false) ∧
    (j.Attempts = j.MaxRetry - 1 → j.CanRetry = true) := by
  unfold Job.CanRetry
  refine ⟨by simp, fun h => ?_, fun h => ?_⟩
  · simp only [decide_eq_false_iff_not, not_lt, h, le_refl]
  · simp only [decide_eq_true_eq, h]
    omega

/-- Witness for C3 at the boundary pairs (2, 3) and (3, 3). -/
theorem canRetry_iff_attempts_lt_maxRetry_witness :
    Job.CanRetry
        { ID := "", Type' := "", Payload := Json.null, Attempts := 2, MaxRetry := 3,
          CreatedAt := 0 } = true ∧
    Job.CanRetry
        { ID := "", Type' := "", Payload := Json.null, Attempts := 3, MaxRetry := 3,
          CreatedAt := 0 } = false :=
  ⟨(canRetry_iff_attempts_lt_maxRetry _).1.mpr (by decide),
   (canRetry_iff_attempts_lt_maxRetry _).2.1 (by decide)⟩

/-- C4: decoding the bytes produced by encoding any envelope created from a
(type, payload) pair yields a job equal to the original in every field. -/
theorem decode_encode_roundtrip (id : String) (createdAt : Int) (jobType : String)
    (payload : Json) :
    DecodeJob (Job.Encode (NewJob id createdAt jobType payload)) =
      Except.ok (NewJob id createdAt jobType payload) :=
  decode_encode (NewJob id createdAt jobType payload)

/-- C5: the per-message callback returns nil to the transport on every
delivered message body, whatever branch it takes, so the message is always
acknowledged and retry is never a transport nack. -/
theorem handleMessage_always_acks (w : Worker) (msg : Json) :
    (w.handleMessage msg).transportErr = none := by
  unfold Worker.handleMessage
  split
  · rfl
  · dsimp only
    split
    · rfl
    · split
      · split <;> rfl
      · rfl

/-- C6: a message body that fails to decode is acknowledged and dropped: no
handler runs, no incremented job exists, and no retry publish is scheduled. -/
theorem decode_failure_acked_dropped (w : Worker) (msg : Json) (e : String)
    (h : DecodeJob msg = Except.error e) :
    (w.handleMessage msg).transportErr = none ∧
    (w.handleMessage msg).job = none ∧
    (w.handleMessage msg).handlerInvoked = false ∧
    (w.handleMessage msg).retry = none := by
  unfold Worker.handleMessage
  rw [h]
  exact ⟨rfl, rfl, rfl, rfl⟩

/-- Witness for C6 on a JSON string body, which cannot unmarshal into the
Job struct. -/
theorem decode_failure_acked_dropped_witness :
    ((failWorker "email.send").handleMessage (Json.str "oops")).transportErr = none ∧
    ((failWorker "email.send").handleMessage (Json.str "oops")).job = none ∧
    ((failWorker "email.send").handleMessage (Json.str "oops")).handlerInvoked = false ∧
    ((failWorker "email.send").handleMessage (Json.str "oops")).retry = none :=
  decode_failure_acked_dropped (failWorker "email.send") (Json.str "oops")
    "json: cannot unmarshal value into Go value of type worker.Job" rfl

/-- C7: a decoded job whose type has no registered handler is acknowledged
and dropped: no handler is invoked, no retry publish is scheduled, and no
error is returned to the transport callback. -/
theorem no_handler_acked_dropped (w : Worker) (msg : Json) (job : Job)
    (hdec : DecodeJob msg = Except.ok job)
    (hlook : w.handlers job.Type' = none) :
    (w.handleMessage msg).handlerInvoked = false ∧
    (w.handleMessage msg).retry = none ∧
    (w.handleMessage msg).transportErr = none := by
  unfold Worker.handleMessage
  rw [hdec]
  dsimp only
  rw [incrementAttempts_type, hlook]
  exact ⟨rfl, rfl, rfl⟩

/-- Witness for C7: a worker with an empty registry drops a well-formed job. -/
theorem no_handler_acked_dropped_witness :
    (((Worker.New { QueueName := "jobs", Exchange := "", Concurrency := 1 }).handleMessage
        (NewJob "id7" 0 "noop" Json.null).Encode).handlerInvoked = false) ∧
    (((Worker.New { QueueName := "jobs", Exchange := "", Concurrency := 1 }).handleMessage
        (NewJob "id7" 0 "noop" Json.null).Encode).retry = none) :=
  ⟨(no_handler_acked_dropped _ _ (NewJob "id7" 0 "noop" Json.null)
      (decode_encode _) rfl).1,
   (no_handler_acked_dropped _ _ (NewJob "id7" 0 "noop" Json.null)
      (decode_encode _) rfl).2.1⟩

/-- C8: the Worker's retry re-publish and the Publisher's `PublishRaw`
perform the same transport call on any job — the same encoded envelope to
the same exchange and routing key — whenever the two components carry the
same queue name and exchange, and in particular whenever both were
constructed from the same queue-name/exchange pair (the construction
defaults agree as well). -/
theorem retry_republish_equiv_publishRaw :
    (∀ (w : Worker) (p : Publisher) (job : Job),
        p.queueName = w.queueName → p.exchange = w.exchange →
        (w.retryJob job).publish = p.PublishRaw job) ∧
    (∀ (q e : String) (c : Int) (job : Job),
        ((Worker.New { QueueName := q, Exchange := e, Concurrency := c }).retryJob job).publish =
          (NewPublisher q e).PublishRaw job) := by
  constructor
  · intro w p job hq he
    unfold Worker.retryJob Publisher.PublishRaw
    rw [hq, he]
  · intro q e c job
    rfl

/-- Witness for C8 with matching construction parameters. -/
theorem retry_republish_equiv_publishRaw_witness :
    ((failWorker "email.send").retryJob (NewJob "id8" 0 "email.send" Json.null)).publish =
      (NewPublisher "jobs" "").PublishRaw (NewJob "id8" 0 "email.send" Json.null) :=
  retry_republish_equiv_publishRaw.1 (failWorker "email.send") (NewPublisher "jobs" "")
    (NewJob "id8" 0 "email.send" Json.null) rfl rfl

/-- C2: whenever handling a message schedules a retry (the handler failed
and the job can retry), the computed backoff delay is exactly the square of
the job's attempt count, in seconds. -/
theorem retry_delay_is_attempts_squared (w : Worker) (msg : Json) (job : Job)
    (act : RetryAction)
    (hjob : (w.handleMessage msg).job = some job)
    (hact : (w.handleMessage msg).retry = some act) :
    act.delayNanos = job.Attempts * job.Attempts * second := by
  unfold Worker.handleMessage at hjob hact
  rcases hd : DecodeJob msg with e | job0
  · simp only [hd] at hact
    exact absurd hact (by simp)
  · simp only [hd] at hjob hact
    rcases hh : w.handlers job0.IncrementAttempts.Type' with _ | handler
    · simp only [hh] at hact
      exact absurd hact (by simp)
    · simp only [hh] at hjob hact
      rcases hr : handler.handle job0.IncrementAttempts with _ | err
      · simp only [hr] at hact
        exact absurd hact (by simp)
      · simp only [hr] at hjob hact
        cases hc : job0.IncrementAttempts.CanRetry
        · simp only [hc] at hact
          simp at hact
        · simp only [hc] at hjob hact
          simp only [if_true] at hjob hact
          simp only [Option.some.injEq] at hjob hact
          subst hjob
          subst hact
          rfl

/-- Witness for C2: the first failure of the scenario job schedules a retry
after 1 second. -/
theorem retry_delay_is_attempts_squared_witness :
    RetryAction.delayNanos
        ((failWorker "email.send").retryJob
          ((NewJob "id2" 0 "email.send" Json.null).IncrementAttempts)) =
      Job.Attempts ((NewJob "id2" 0 "email.send" Json.null).IncrementAttempts) *
        Job.Attempts ((NewJob "id2" 0 "email.send" Json.null).IncrementAttempts) * second :=
  retry_delay_is_attempts_squared (failWorker "email.send")
    (NewJob "id2" 0 "email.send" Json.null).Encode
    ((NewJob "id2" 0 "email.send" Json.null).IncrementAttempts)
    ((failWorker "email.send").retryJob ((NewJob "id2" 0 "email.send" Json.null).IncrementAttempts))
    rfl rfl

/-- Handling the encoded form of a job whose handler is found, fails, and
whose incremented attempt count still allows a retry produces exactly the
retry-scheduling result record. -/
theorem handleMessage_fail_retry (w : Worker) (job : Job) (h : JobHandler) (e : String)
    (hreg : w.handlers job.IncrementAttempts.Type' = some h)
    (he : h.handle job.IncrementAttempts = some e)
    (hcr : job.IncrementAttempts.CanRetry = true) :
    w.handleMessage job.Encode =
      { transportErr := none, job := some job.IncrementAttempts, handlerInvoked := true,
        retry := some (w.retryJob job.IncrementAttempts), terminalLog := none } := by
  unfold Worker.handleMessage
  rw [decode_encode]
  dsimp only
  rw [hreg]
  dsimp only
  rw [he]
  dsimp only
  rw [hcr]
  simp

/-- Handling the encoded form of a job whose handler is found, fails, and
whose incremented attempt count exhausts the retry ceiling produces exactly
the terminal-abandonment result record. -/
theorem handleMessage_fail_exhausted (w : Worker) (job : Job) (h : JobHandler) (e : String)
    (hreg : w.handlers job.IncrementAttempts.Type' = some h)
    (he : h.handle job.IncrementAttempts = some e)
    (hcr : job.IncrementAttempts.CanRetry = false) :
    w.handleMessage job.Encode =
      { transportErr := none, job := some job.IncrementAttempts, handlerInvoked := true,
        retry := none,
        terminalLog := some (job.IncrementAttempts.ID, job.IncrementAttempts.Type',
          job.IncrementAttempts.Attempts) } := by
  unfold Worker.handleMessage
  rw [decode_encode]
  dsimp only
  rw [hreg]
  dsimp only
  rw [he]
  dsimp only
  rw [hcr]
  simp

/-- Unfolding one step of the delivery loop when handling the message
schedules a retry: the loop records the result and continues with the
re-published body. -/
theorem run_succ_of_retry (w : Worker) (fuel : Nat) (msg : Json) (act : RetryAction)
    (hr : (w.handleMessage msg).retry = some act) :
    w.run (fuel + 1) msg = w.handleMessage msg :: w.run fuel act.publish.body := by
  have h0 : w.run (fuel + 1) msg =
      match (w.handleMessage msg).retry with
      | none => [w.handleMessage msg]
      | some a => w.handleMessage msg :: w.run fuel a.publish.body := rfl
  rw [h0, hr]

/-- Unfolding one step of the delivery loop when handling the message
schedules no retry: the loop stops with that single result. -/
theorem run_succ_of_no_retry (w : Worker) (fuel : Nat) (msg : Json)
    (hr : (w.handleMessage msg).retry = none) :
    w.run (fuel + 1) msg = [w.handleMessage msg] := by
  have h0 : w.run (fuel + 1) msg =
      match (w.handleMessage msg).retry with
      | none => [w.handleMessage msg]
      | some a => w.handleMessage msg :: w.run fuel a.publish.body := rfl
  rw [h0, hr]

/-- C1: for every job created with the default retry ceiling (`NewJob`, any
id, creation time, type and payload), every worker, and every registered
handler for that type that returns an error on every invocation, the
delivery loop performs exactly three delivery attempts with `attempts`
reading 1, 2, 3; the first two failures schedule a re-publish, the third
schedules none and emits the terminal "Job exhausted retries" log with the
job id, type, and final attempt count 3. -/
theorem default_retry_three_attempts_then_terminal (fuel : Nat) (id : String)
    (createdAt : Int) (jobType : String) (payload : Json) (w : Worker) (h : JobHandler)
    (hreg : w.handlers jobType = some h)
    (hfail : ∀ j : Job, ∃ e : String, h.handle j = some e) :
    (w.run (fuel + 3) (NewJob id createdAt jobType payload).Encode).map
      (fun r => (r.handlerInvoked, r.job.map Job.Attempts, r.retry.isSome, r.terminalLog)) =
    [(true, some 1, true, none),
     (true, some 2, true, none),
     (true, some 3, false, some (id, jobType, 3))] := by
  obtain ⟨e1, he1⟩ := hfail (NewJob id createdAt jobType payload).IncrementAttempts
  obtain ⟨e2, he2⟩ :=
    hfail ((NewJob id createdAt jobType payload).IncrementAttempts).IncrementAttempts
  obtain ⟨e3, he3⟩ :=
    hfail (((NewJob id createdAt jobType
      payload).IncrementAttempts).IncrementAttempts).IncrementAttempts
  have s1 := handleMessage_fail_retry w (NewJob id createdAt jobType payload) h e1
    hreg he1 rfl
  have s2 := handleMessage_fail_retry w
    ((NewJob id createdAt jobType payload).IncrementAttempts) h e2 hreg he2 rfl
  have s3 := handleMessage_fail_exhausted w
    (((NewJob id createdAt jobType payload).IncrementAttempts).IncrementAttempts) h e3
    hreg he3 rfl
  have t1 : w.run (fuel + 3) (NewJob id createdAt jobType payload).Encode =
      w.handleMessage (NewJob id createdAt jobType payload).Encode ::
        w.run (fuel + 2) ((NewJob id createdAt jobType payload).IncrementAttempts).Encode :=
    run_succ_of_retry w (fuel + 2) (NewJob id createdAt jobType payload).Encode
      (w.retryJob (NewJob id createdAt jobType payload).IncrementAttempts) (by rw [s1])
  have t2 : w.run (fuel + 2) ((NewJob id createdAt jobType payload).IncrementAttempts).Encode =
      w.handleMessage ((NewJob id createdAt jobType payload).IncrementAttempts).Encode ::
        w.run (fuel + 1)
          (((NewJob id createdAt jobType
            payload).IncrementAttempts).IncrementAttempts).Encode :=
    run_succ_of_retry w (fuel + 1)
      ((NewJob id createdAt jobType payload).IncrementAttempts).Encode
      (w.retryJob (((NewJob id createdAt jobType
        payload).IncrementAttempts).IncrementAttempts)) (by rw [s2])
  have t3 : w.run (fuel + 1)
      (((NewJob id createdAt jobType payload).IncrementAttempts).IncrementAttempts).Encode =
      [w.handleMessage
        (((NewJob id createdAt jobType
          payload).IncrementAttempts).IncrementAttempts).Encode] :=
    run_succ_of_no_retry w fuel
      (((NewJob id createdAt jobType payload).IncrementAttempts).IncrementAttempts).Encode
      (by rw [s3])
  rw [t1, t2, t3, s1, s2, s3]
  rfl

/-- Witness for C1: the scenario-A job against a worker whose registered
handler for "email.send" always fails. -/
theorem default_retry_three_attempts_then_terminal_witness :
    ((failWorker "email.send").run 3
        (NewJob "id1" 0 "email.send" emailPayload).Encode).map
      (fun r => (r.handlerInvoked, r.job.map Job.Attempts, r.retry.isSome, r.terminalLog)) =
    [(true, some 1, true, none),
     (true, some 2, true, none),
     (true, some 3, false, some ("id1", "email.send", 3))] :=
  default_retry_three_attempts_then_terminal 0 "id1" 0 "email.send" emailPayload
    (failWorker "email.send") (alwaysFailJobHandler "email.send") rfl
    (fun _ => ⟨"handler failed", rfl⟩)

/-- Registering a handler makes it the registry entry for its own type. -/
theorem registerHandler_lookup_self (w : Worker) (h : JobHandler) :
    (w.RegisterHandler h).handlers h.type = some h := by
  unfold Worker.RegisterHandler
  simp

/-- C9: `NewJobWithRetry` stores any caller-supplied retry ceiling without
validation (attempts still start at 0); when `maxRetry ≤ 0` the fresh job
already fails `CanRetry`, so the first failed delivery is abandoned
terminally — handler invoked once, no retry scheduled, terminal log carrying
the id, type and attempt count 1. -/
theorem nonpositive_maxRetry_never_retries :
    (∀ (id : String) (ca : Int) (t : String) (p : Json) (m : Int),
        (NewJobWithRetry id ca t p m).MaxRetry = m ∧
        (NewJobWithRetry id ca t p m).Attempts = 0) ∧
    (∀ (id : String) (ca : Int) (t : String) (p : Json) (m : Int), m ≤ 0 →
        (NewJobWithRetry id ca t p m).CanRetry = false) ∧
    (∀ (id : String) (ca : Int) (t : String) (p : Json) (m : Int), m ≤ 0 →
        ((failWorker t).handleMessage (NewJobWithRetry id ca t p m).Encode).handlerInvoked =
          true ∧
        ((failWorker t).handleMessage (NewJobWithRetry id ca t p m).Encode).retry = none ∧
        ((failWorker t).handleMessage (NewJobWithRetry id ca t p m).Encode).terminalLog =
          some (id, t, 1)) := by
  refine ⟨fun id ca t p m => ⟨rfl, rfl⟩, fun id ca t p m hm => ?_, fun id ca t p m hm => ?_⟩
  · show decide ((0 : Int) < m) = false
    simp only [decide_eq_false_iff_not, not_lt]
    omega
  · have hl : (failWorker t).handlers
        ((NewJobWithRetry id ca t p m).IncrementAttempts).Type' =
          some (alwaysFailJobHandler t) :=
      registerHandler_lookup_self _ _
    have hcr : ((NewJobWithRetry id ca t p m).IncrementAttempts).CanRetry = false := by
      show decide ((0 : Int) + 1 < m) = false
      simp only [decide_eq_false_iff_not, not_lt]
      omega
    unfold Worker.handleMessage
    rw [decode_encode]
    dsimp only
    rw [hl]
    dsimp only [alwaysFailJobHandler]
    rw [hcr]
    simp only [Bool.false_eq_true, if_false]
    exact ⟨trivial, trivial, rfl⟩

/-- Witness for C9 at `maxRetry = 0`. -/
theorem nonpositive_maxRetry_never_retries_witness :
    Job.CanRetry (NewJobWithRetry "id9" 0 "cleanup.purge" Json.null 0) = false ∧
    ((failWorker "cleanup.purge").handleMessage
        (NewJobWithRetry "id9" 0 "cleanup.purge" Json.null 0).Encode).retry = none ∧
    ((failWorker "cleanup.purge").handleMessage
        (NewJobWithRetry "id9" 0 "cleanup.purge" Json.null 0).Encode).terminalLog =
      some ("id9", "cleanup.purge", 1) :=
  ⟨nonpositive_maxRetry_never_retries.2.1 "id9" 0 "cleanup.purge" Json.null 0 (by decide),
   (nonpositive_maxRetry_never_retries.2.2 "id9" 0 "cleanup.purge" Json.null 0 (by decide)).2.1,
   (nonpositive_maxRetry_never_retries.2.2 "id9" 0 "cleanup.purge" Json.null 0 (by decide)).2.2⟩

/-- C10 counterexample: a syntactically valid JSON object whose `attempts`
field holds a string fails to decode, so decode does validate the JSON types
of the fields that are present. -/
theorem decode_rejects_mistyped_field :
    DecodeJob (Json.obj [("attempts", Json.str "three")]) =
      Except.error "json: cannot unmarshal value into field attempts of type int" :=
  rfl

/-- C10 (amended): decode requires no field of the envelope to be present
and applies no semantic validation to what it accepts: the empty JSON
object decodes successfully into the zero-valued job (empty id, empty type,
attempts 0, maxRetry 0) even though the data model requires `type` to be
non-empty, and that job is dropped as unroutable at dispatch (no handler
being registered for the empty type) rather than rejected at decode; a
present field of the wrong JSON type, by contrast, makes decode fail. -/
theorem decode_no_semantic_validation :
    (DecodeJob (Json.obj []) = Except.ok Job.zero) ∧
    (Job.zero.ID = "" ∧ Job.zero.Type' = "" ∧ Job.zero.Attempts = 0 ∧
      Job.zero.MaxRetry = 0) ∧
    (∀ w : Worker, w.handlers "" = none →
        (w.handleMessage (Json.obj [])).handlerInvoked = false ∧
        (w.handleMessage (Json.obj [])).retry = none ∧
        (w.handleMessage (Json.obj [])).transportErr = none) := by
  refine ⟨rfl, ⟨rfl, rfl, rfl, rfl⟩, ?_⟩
  intro w hw
  unfold Worker.handleMessage
  rw [show DecodeJob (Json.obj []) = Except.ok Job.zero from rfl]
  dsimp only
  rw [incrementAttempts_type, show Job.zero.Type' = "" from rfl, hw]
  exact ⟨rfl, rfl, rfl⟩

/-- Witness for the amended C10: a freshly constructed worker (empty
registry) acknowledges and drops the job decoded from the empty object. -/
theorem decode_no_semantic_validation_witness :
    ((Worker.New { QueueName := "", Exchange := "", Concurrency := 0 }).handleMessage
        (Json.obj [])).handlerInvoked = false ∧
    ((Worker.New { QueueName := "", Exchange := "", Concurrency := 0 }).handleMessage
        (Json.obj [])).retry = none :=
  ⟨(decode_no_semantic_validation.2.2 _ rfl).1,
   (decode_no_semantic_validation.2.2 _ rfl).2.1⟩
